import Mathlib

/-!
Verification of the extraction engine of the Rotten Tomatoes scraper
(`rotten_tomatoes_web_scraper.py`).

The Python code is shallowly embedded as follows.

* A parsed HTML document is modelled by the text/attribute values that the
  extractors actually read (`MovieDoc`, `TVDoc`): each locator result is an
  `Option String` (`none` = the element/attribute is absent, `some t` = the
  element is present and its extracted text is `t`).
* Python floats are modelled by `ℚ`; `float(s)` is modelled by `pyFloat`,
  which covers the decimal-numeral subset of Python's `float` grammar
  (optional sign, digits, optional fractional part, surrounding whitespace);
  exotic inputs (exponents, `inf`, `nan`, underscores) are out of scope.
* Code that can raise returns `Except PyErr _`; a raised exception is an
  `Except.error`.
* `datetime.strptime(value, '%b %d, %Y')` is modelled by `strptimeMatch`
  (CPython's regex phase: case-insensitive month abbreviation, whitespace
  runs for literal spaces, the `%d` day pattern, a 4-digit year, full-string
  match) followed by the calendar-validity check that the `datetime`
  constructor performs (`validDate`).
* String scalars are processed over `List Char` so that all definitions are
  structurally recursive and kernel-reducible.
-/

/-! ## Generic string helpers -/

/-- Digit list to number, most significant first. -/
def digitsToNat (ds : List Char) : Nat :=
  ds.foldl (fun a c => a * 10 + (c.toNat - '0'.toNat)) 0

/-- Python `str.strip()` on a character list: remove leading and trailing
whitespace. -/
def trimChars (cs : List Char) : List Char :=
  ((cs.dropWhile Char.isWhitespace).reverse.dropWhile Char.isWhitespace).reverse

/-- Python `str.strip()`. -/
def pyStrip (s : String) : String := String.mk (trimChars s.data)

/-- Python `str.strip('%')`: remove leading and trailing `%` characters. -/
def stripPercentChars (cs : List Char) : List Char :=
  ((cs.dropWhile (fun c => c = '%')).reverse.dropWhile (fun c => c = '%')).reverse

/-- Python `str.strip('%')`. -/
def pyStripPercent (s : String) : String := String.mk (stripPercentChars s.data)

/-- Python `str.split(',')` on a character list: split at every comma,
keeping empty pieces; the empty string yields one empty piece. -/
def pySplitComma : List Char → List (List Char)
  | [] => [[]]
  | c :: rest =>
    if c = ',' then [] :: pySplitComma rest
    else
      match pySplitComma rest with
      | [] => [[c]]
      | p :: ps => (c :: p) :: ps

/-- Python `str.split(',')`. -/
def pySplit (s : String) : List String := (pySplitComma s.data).map String.mk

/-- Join character lists with a separator (Python `sep.join`). -/
def joinWithChars (sep : List Char) : List (List Char) → List Char
  | [] => []
  | [x] => x
  | x :: y :: rest => x ++ sep ++ joinWithChars sep (y :: rest)

/-- Python `', '.join`. -/
def joinCommaSpace (l : List String) : String :=
  String.mk (joinWithChars (", ".data) (l.map String.data))

/-- Substring test (Python `needle in hay`). -/
def containsSub (needle : List Char) : List Char → Bool
  | [] => needle.isEmpty
  | c :: rest => needle.isPrefixOf (c :: rest) || containsSub needle rest

/-- Drop an exact prefix, returning the remainder on success. -/
def dropPrefixChars : List Char → List Char → Option (List Char)
  | [], cs => some cs
  | _ :: _, [] => none
  | p :: ps, c :: cs => if p = c then dropPrefixChars ps cs else none

/-- Drop a prefix up to ASCII case (CPython compiles strptime patterns with
`IGNORECASE`), returning the remainder on success. -/
def ciPrefixDrop : List Char → List Char → Option (List Char)
  | [], cs => some cs
  | _ :: _, [] => none
  | p :: ps, c :: cs => if p.toLower = c.toLower then ciPrefixDrop ps cs else none

/-- Python `str.replace(pat, rep)` (non-overlapping, left to right), driven
by a fuel argument so that the recursion is structural; `fuel` at least the
input length and a nonempty `pat` give the exact Python behaviour. -/
def replaceSubFuel (pat rep : List Char) : Nat → List Char → List Char
  | 0, cs => cs
  | _ + 1, [] => []
  | fuel + 1, c :: rest =>
    match dropPrefixChars pat (c :: rest) with
    | some remainder => rep ++ replaceSubFuel pat rep fuel remainder
    | none => c :: replaceSubFuel pat rep fuel rest

/-- Python `s.replace(pat, rep)` for nonempty `pat`. -/
def pyReplace (s pat rep : String) : String :=
  String.mk (replaceSubFuel pat.data rep.data (s.data.length + 1) s.data)

/-! ## Python `float` model -/

/-- Syntactic decomposition of a decimal float numeral: sign, integer part,
fraction digits (as a number plus its digit count). Kept separate from the
`ℚ` conversion so that parsing is kernel-computable. -/
structure FloatParts where
  neg : Bool
  intPart : Nat
  fracPart : Nat
  fracLen : Nat
deriving DecidableEq

/-- Decimal-numeral core of Python `float`: optional sign, integer digits,
optional `.` and fraction digits; at least one digit overall. -/
def pyFloatCore (cs : List Char) : Option FloatParts :=
  let signed : Bool × List Char :=
    match cs with
    | '+' :: r => (false, r)
    | '-' :: r => (true, r)
    | _ => (false, cs)
  let intDs := signed.2.takeWhile Char.isDigit
  let afterInt := signed.2.dropWhile Char.isDigit
  match afterInt with
  | [] =>
    if intDs.isEmpty then none
    else some ⟨signed.1, digitsToNat intDs, 0, 0⟩
  | '.' :: r =>
    let fracDs := r.takeWhile Char.isDigit
    let afterFrac := r.dropWhile Char.isDigit
    if afterFrac.isEmpty ∧ (¬ intDs.isEmpty ∨ ¬ fracDs.isEmpty) then
      some ⟨signed.1, digitsToNat intDs, digitsToNat fracDs, fracDs.length⟩
    else none
  | _ => none

/-- Parsing phase of Python `float(s)` (decimal-numeral subset; surrounding
whitespace is allowed, as in Python). `none` models a raised `ValueError`. -/
def pyFloatParts (s : String) : Option FloatParts := pyFloatCore (trimChars s.data)

/-- Value of a decomposed float numeral. -/
def partsToRat (p : FloatParts) : ℚ :=
  (if p.neg then -1 else 1) * ((p.intPart : ℚ) + (p.fracPart : ℚ) / (10 : ℚ) ^ p.fracLen)

/-- Python `float(s)`, modelled over `ℚ`. -/
def pyFloat (s : String) : Option ℚ := (pyFloatParts s).map partsToRat

/-! ## Date parsing: `datetime.strptime(value, '%b %d, %Y')` -/

/-- Month abbreviations, in month order, as matched by `%b`. -/
def monthAbbrevs : List String :=
  ["Jan", "Feb", "Mar", "Apr", "May", "Jun",
   "Jul", "Aug", "Sep", "Oct", "Nov", "Dec"]

/-- Try each abbreviation in order with the supplied prefix matcher,
returning the 1-based month number and the remainder. -/
def matchMonthAux (f : List Char → List Char → Option (List Char)) :
    List String → Nat → List Char → Option (Nat × List Char)
  | [], _, _ => none
  | a :: rest, i, cs =>
    match f a.data cs with
    | some remainder => some (i, remainder)
    | none => matchMonthAux f rest (i + 1) cs

/-- `%b`: case-insensitive month-abbreviation match. -/
def matchMonthCI (cs : List Char) : Option (Nat × List Char) :=
  matchMonthAux ciPrefixDrop monthAbbrevs 1 cs

/-- Exact (case-sensitive) month-abbreviation match, used by the
spec-modelled grammar. -/
def matchMonthExact (cs : List Char) : Option (Nat × List Char) :=
  matchMonthAux dropPrefixChars monthAbbrevs 1 cs

/-- A literal space in a strptime format matches one or more whitespace
characters. -/
def wsPlus : List Char → Option (List Char)
  | [] => none
  | c :: rest =>
    if c.isWhitespace then some (rest.dropWhile Char.isWhitespace) else none

/-- `%d`: one or two digits with value 1..31 (the CPython day pattern
`3[01]|[12]\d|0[1-9]|[1-9]` accepts exactly these before the following
literal). -/
def parseDay (cs : List Char) : Option (Nat × List Char) :=
  let ds := cs.takeWhile Char.isDigit
  let rest := cs.dropWhile Char.isDigit
  if 1 ≤ ds.length ∧ ds.length ≤ 2 ∧ 1 ≤ digitsToNat ds ∧ digitsToNat ds ≤ 31 then
    some (digitsToNat ds, rest)
  else none

/-- `%Y`: exactly four digits. -/
def parseYear4 (cs : List Char) : Option (Nat × List Char) :=
  let ds := cs.takeWhile Char.isDigit
  let rest := cs.dropWhile Char.isDigit
  if ds.length = 4 then some (digitsToNat ds, rest) else none

/-- Expect one exact character. -/
def expectChar (c : Char) : List Char → Option (List Char)
  | [] => none
  | x :: r => if x = c then some r else none

/-- Regex phase of `datetime.strptime(s, '%b %d, %Y')`: month abbreviation,
whitespace, day, comma, whitespace, 4-digit year, end of string. -/
def strptimeMatch (s : String) : Option (Nat × Nat × Nat) :=
  (matchMonthCI s.data).bind fun mr =>
    (wsPlus mr.2).bind fun r2 =>
      (parseDay r2).bind fun dr =>
        (expectChar ',' dr.2).bind fun r3 =>
          (wsPlus r3).bind fun r4 =>
            (parseYear4 r4).bind fun yr =>
              if yr.2 = [] then some (mr.1, dr.1, yr.1) else none

/-- Gregorian (proleptic) leap year, as used by `datetime`. -/
def isLeapYear (y : Nat) : Bool :=
  y % 4 == 0 && (y % 100 != 0 || y % 400 == 0)

/-- Days in a month. -/
def daysInMonth (m y : Nat) : Nat :=
  if m = 2 then (if isLeapYear y then 29 else 28)
  else if m = 4 ∨ m = 6 ∨ m = 9 ∨ m = 11 then 30
  else 31

/-- The validity check performed by the `datetime` constructor. -/
def validDate (m d y : Nat) : Bool :=
  decide (1 ≤ y ∧ y ≤ 9999 ∧ d ≤ daysInMonth m y)

/-- `datetime.strptime(s, '%b %d, %Y')` as a total function: `some (m, d, y)`
on success, `none` when the call raises `ValueError`. -/
def strptimeBDY (s : String) : Option (Nat × Nat × Nat) :=
  match strptimeMatch s with
  | some (m, d, y) => if validDate m d y then some (m, d, y) else none
  | none => none

/-- Source `check_date_format`: true exactly when
`datetime.strptime(value, '%b %d, %Y')` does not raise. -/
def check_date_format (value : String) : Bool := (strptimeBDY value).isSome

/-- Two-digit zero-padded numeral (as produced by strftime). -/
def pad2 (n : Nat) : String :=
  if n < 10 then "0" ++ toString n else toString n

/-- `datetime.strftime('%m/%d/%y')`. -/
def formatMMDDYY (m d y : Nat) : String :=
  pad2 m ++ "/" ++ pad2 d ++ "/" ++ pad2 (y % 100)

/-! ## Data model -/

/-- A Python value that is either a string (for the sentinel) or a float
score; mirrors the heterogeneous tuple slots of the source. -/
inductive Val where
  | str (s : String)
  | num (q : ℚ)
deriving DecidableEq

/-- Exceptions the extractors can raise. -/
inductive PyErr where
  | attributeError
  | valueError
  | unboundLocalError
deriving DecidableEq

/-- The canonical output record (the 8-tuple returned by the extractors). -/
structure MediaRecord where
  title : String
  mediaType : String
  year : String
  genre : String
  runtime : String
  criticScore : Val
  audienceScore : Val
  releaseDate : String
deriving DecidableEq

/-! ## Movie extractor (`extract_movie_info`) -/

/-- The two score attributes of the `score-board-deprecated` element;
`none` models a missing attribute (BeautifulSoup `Tag.get` returns `None`). -/
structure ScoreBoard where
  tomatometerscore : Option String
  audiencescore : Option String
deriving DecidableEq

/-- The parts of a movie page that `extract_movie_info` reads. For each
locator, `none` means the element is absent and `some t` that its extracted
text (or attribute value) is `t`. -/
structure MovieDoc where
  titleText : Option String
  infoText : Option String
  genreText : Option String
  scoreBoard : Option ScoreBoard
  timeText : Option String

/-- One score expression of lines 82-83: the guard is
`score_board.get(key) not in ('not found', '')` where a missing attribute
gives `None` (which is not in that tuple), and the value converted is
`score_board.get(key, 'not found')`. -/
def attrScore (a : Option String) : Except PyErr Val :=
  if (match a with
      | none => true
      | some v => decide (v ≠ "not found" ∧ v ≠ "")) then
    match pyFloat (a.getD "not found") with
    | some q => .ok (.num (q / 100))
    | none => .error .valueError
  else .ok (.str "not found")

/-- Score of a possibly missing `score-board-deprecated` element. -/
def score_board_score (sb : Option ScoreBoard) (pick : ScoreBoard → Option String) :
    Except PyErr Val :=
  match sb with
  | none => .ok (.str "not found")
  | some b => attrScore (pick b)

/-- Line 79: split the genre text on commas, strip each part, re-join with
a comma and a space. -/
def movie_genre (g : String) : String :=
  joinCommaSpace ((pySplit g).map pyStrip)

/-- Line 87: reformat the release date to mm/dd/yy when it passes
`check_date_format`, else the sentinel. -/
def movie_release_date (rd : String) : String :=
  if check_date_format rd then
    match strptimeBDY rd with
    | some (m, d, y) => formatMMDDYY m d y
    | none => "not found"
  else "not found"

/-- Source `extract_movie_info` (lines 51-89). The `p.info` locator result
is used without a presence check, so a missing info element raises
`AttributeError`; the score conversions can raise `ValueError`. -/
def extract_movie_info (soup : MovieDoc) : Except PyErr MediaRecord := do
  let title := soup.titleText.getD "not found"
  match soup.infoText with
  | none => .error .attributeError
  | some info_text =>
    let parts := pySplit info_text
    let year := if parts.length > 0 then pyStrip (parts.headD "") else "not found"
    let runtime := if parts.length > 2 then pyStrip (parts.getD 2 "") else "not found"
    let genre :=
      match soup.genreText with
      | some g => movie_genre g
      | none => "not found"
    let tomatometer ← score_board_score soup.scoreBoard (fun b => b.tomatometerscore)
    let audience_score ← score_board_score soup.scoreBoard (fun b => b.audiencescore)
    let release_date := movie_release_date (soup.timeText.getD "not found")
    return { title := title, mediaType := "Movie", year := year, genre := genre,
             runtime := runtime, criticScore := tomatometer,
             audienceScore := audience_score, releaseDate := release_date }

/-! ## Television extractor (`extract_tv_info`) -/

/-- An `rt-link` element: its `href` attribute (if any) and its text. -/
structure TVLink where
  href : Option String
  text : String
deriving DecidableEq

/-- The parts of a television page (and of the secondary series page) that
`extract_tv_info` reads. -/
structure TVDoc where
  h1Text : Option String
  links : List TVLink
  criticsScoreText : Option String
  audienceScoreText : Option String
  airDateText : Option String
  seriesReleaseDateText : Option String

/-- The show-level URL base of the series-URL regex. -/
def rtTvBase : String := "https://www.rottentomatoes.com/tv/"

/-- One attempt of the series-URL regex
`(https://www\.rottentomatoes\.com/tv/[^/]+)/?` at a fixed position. -/
def seriesUrlAt (cs : List Char) : Option String :=
  match dropPrefixChars rtTvBase.data cs with
  | none => none
  | some rest =>
    let name := rest.takeWhile (fun c => c ≠ '/')
    if name.isEmpty then none else some (rtTvBase ++ String.mk name)

/-- `re.search` for the series-URL pattern: leftmost match. -/
def seriesUrlSearch : List Char → Option String
  | [] => none
  | c :: rest =>
    match seriesUrlAt (c :: rest) with
    | some u => some u
    | none => seriesUrlSearch rest

/-- Line 110: derive the series URL from the episode/season URL; `none`
models `re.search` returning `None` (on which `.group(1)` raises
`AttributeError`). -/
def seriesUrlOf (url : String) : Option String := seriesUrlSearch url.data

/-- The separator of the season/title pattern as it appears in the source:
the three characters that the en dash turns into when UTF-8 bytes are read
as cp1252 (not a hyphen). -/
def dashGlyph : List Char := ['â', '€', '“']

/-- One attempt of the regex `Season (\d+) â€“ (.+)` at a fixed position. -/
def seasonTitleAt (cs : List Char) : Option (Nat × String) :=
  match dropPrefixChars ("Season ".data) cs with
  | none => none
  | some r1 =>
    let ds := r1.takeWhile Char.isDigit
    let r2 := r1.dropWhile Char.isDigit
    if ds.isEmpty then none
    else
      match dropPrefixChars (' ' :: dashGlyph ++ [' ']) r2 with
      | none => none
      | some r3 =>
        let t := r3.takeWhile (fun c => c ≠ '\n')
        if t.isEmpty then none else some (digitsToNat ds, String.mk t)

/-- `re.search` for the season/title pattern: leftmost match. -/
def seasonTitleSearch : List Char → Option (Nat × String)
  | [] => none
  | c :: rest =>
    match seasonTitleAt (c :: rest) with
    | some r => some r
    | none => seasonTitleSearch rest

/-- Lines 116-121: season/title extraction and composition. On a regex
mismatch both `season` and `title` are the string `'not found'`; the
condition `if title and season` then tests string truthiness (nonemptiness),
so it is still satisfied and the composed title is built from the
sentinels. -/
def tv_title (h1Text : Option String) : String :=
  let title_season_text := h1Text.getD ""
  match seasonTitleSearch title_season_text.data with
  | some (n, t) =>
    let season := "Season " ++ toString n
    let title := t
    if title ≠ "" ∧ season ≠ "" then pyStrip title ++ " (" ++ season ++ ")"
    else "not found"
  | none =>
    let season := "not found"
    let title := "not found"
    if title ≠ "" ∧ season ≠ "" then pyStrip title ++ " (" ++ season ++ ")"
    else "not found"

/-- Lines 123-125: texts of all `rt-link` elements whose `href` (default
`''`) contains `'genres:'`, in document order. -/
def tvGenreList (links : List TVLink) : List String :=
  (links.filter (fun l => containsSub ("genres:".data) ((l.href.getD "").data))).map
    (fun l => l.text)

/-- Lines 127-133: a slot-text score; `%` characters are stripped before
`float`, an empty text short-circuits to the sentinel, and a nonempty
unparseable text raises `ValueError`. -/
def tv_text_score (t : String) : Except PyErr Val :=
  if t ≠ "" then
    match pyFloat (pyStripPercent t) with
    | some q => .ok (.num (q / 100))
    | none => .error .valueError
  else .ok (.str "not found")

/-- Source `extract_tv_info` (lines 92-143). The local variables `year` and
`release_date` are assigned only inside the air-date success branch, so a
missing or empty air-date slot makes the final `return` raise
`UnboundLocalError`; a nonempty air date that does not parse raises
`ValueError` from the unguarded `strptime` call on line 139. -/
def extract_tv_info (soup : TVDoc) (url : String) : Except PyErr MediaRecord := do
  match seriesUrlOf url with
  | none => .error .attributeError
  | some _series_url =>
    let series_year := soup.seriesReleaseDateText.getD "not found"
    let title := tv_title soup.h1Text
    let genre := joinCommaSpace (tvGenreList soup.links)
    let tomatometer ← tv_text_score (soup.criticsScoreText.getD "")
    let audience_score ← tv_text_score (soup.audienceScoreText.getD "")
    let release_date_text := soup.airDateText.getD ""
    let release_date_unformatted :=
      if release_date_text ≠ "" then pyStrip (pyReplace release_date_text "Aired" "")
      else "not found"
    if release_date_unformatted ≠ "not found" then
      match strptimeBDY release_date_unformatted with
      | none => .error .valueError
      | some (m, d, y) =>
        let release_date :=
          if check_date_format release_date_unformatted then formatMMDDYY m d y
          else "not found"
        let year :=
          if series_year ≠ "" then toString y ++ " (" ++ series_year ++ ")"
          else "not found"
        return { title := title, mediaType := "TV", year := year, genre := genre,
                 runtime := "N/A", criticScore := tomatometer,
                 audienceScore := audience_score, releaseDate := release_date }
    else .error .unboundLocalError

/-! ## Dispatcher (`scrape_rotten_tomatoes_and_update_sheet`, lines 237-244) -/

/-- Which extractor the dispatcher chooses. -/
inductive Dispatch where
  | movie
  | tv
  | skip
deriving DecidableEq

/-- Type dispatch on the `og:type` meta content. A missing meta element
makes `soup.find(...)['content']` raise `TypeError`, which the enclosing
blanket handler absorbs, so no extractor runs. -/
def dispatch (ogType : Option String) : Dispatch :=
  match ogType with
  | none => .skip
  | some v =>
    if containsSub "movie".data v.data then .movie
    else if containsSub "tv_show".data v.data then .tv
    else .skip

/-- Outcome of one record: either a sheet write of a complete record, or a
silent per-record skip (logged and continued). -/
inductive ScrapeOutcome where
  | wrote (r : MediaRecord)
  | skipped
deriving DecidableEq

/-- Source `scrape_rotten_tomatoes_and_update_sheet`, reduced to its
record-level control flow: dispatch on the type marker, run the chosen
extractor, write on success; every raised exception is caught by the
function's own handlers, which log and return without writing. -/
def scrape_rotten_tomatoes_and_update_sheet (ogType : Option String)
    (movieResult tvResult : Except PyErr MediaRecord) : ScrapeOutcome :=
  match ogType with
  | none => .skipped
  | some v =>
    if containsSub "movie".data v.data then
      match movieResult with
      | .ok r => .wrote r
      | .error _ => .skipped
    else if containsSub "tv_show".data v.data then
      match tvResult with
      | .ok r => .wrote r
      | .error _ => .skipped
    else .skipped

/-! ## Spec-side definitions -/

/-- Modelled from the spec: the syntactic month-abbreviation/day/4-digit-year
grammar of a date string (section 4.4 and section 8): an exact month
abbreviation, a space, a 1-2 digit day (1..31), a comma and a space, and a
4-digit year — with no requirement that the day exists in that month. -/
def specDateParse (s : String) : Option (Nat × Nat × Nat) :=
  (matchMonthExact s.data).bind fun mr =>
    (expectChar ' ' mr.2).bind fun r2 =>
      (parseDay r2).bind fun dr =>
        (expectChar ',' dr.2).bind fun r3 =>
          (expectChar ' ' r3).bind fun r4 =>
            (parseYear4 r4).bind fun yr =>
              if yr.2 = [] then some (mr.1, dr.1, yr.1) else none

/-- The record invariant claimed for score fields: the sentinel, or a
fraction in the unit interval. -/
def scoreInRange (v : Val) : Prop :=
  v = Val.str "not found" ∨ ∃ q : ℚ, v = Val.num q ∧ 0 ≤ q ∧ q ≤ 1

/-! ## Supporting lemmas -/

theorem dropPrefixChars_eq_append {pat cs rest : List Char}
    (h : dropPrefixChars pat cs = some rest) : cs = pat ++ rest := by
  induction pat generalizing cs with
  | nil =>
    simp only [dropPrefixChars, Option.some.injEq] at h
    simp [h]
  | cons p ps ih =>
    cases cs with
    | nil => simp [dropPrefixChars] at h
    | cons c t =>
      by_cases hpc : p = c
      · subst hpc
        simp only [dropPrefixChars, if_pos rfl] at h
        simpa using ih h
      · simp [dropPrefixChars, hpc] at h

theorem ciPrefixDrop_of_exact {pat cs rest : List Char}
    (h : dropPrefixChars pat cs = some rest) : ciPrefixDrop pat cs = some rest := by
  induction pat generalizing cs with
  | nil => simpa [dropPrefixChars, ciPrefixDrop] using h
  | cons p ps ih =>
    cases cs with
    | nil => simp [dropPrefixChars] at h
    | cons c t =>
      by_cases hpc : p = c
      · subst hpc
        simp only [dropPrefixChars, if_pos rfl] at h
        simpa [ciPrefixDrop] using ih h
      · simp [dropPrefixChars, hpc] at h

theorem ciPrefixDrop_none_of_lower_ne {pat other : List Char}
    (hlen : pat.length = other.length)
    (hne : pat.map Char.toLower ≠ other.map Char.toLower) (r : List Char) :
    ciPrefixDrop pat (other ++ r) = none := by
  induction pat generalizing other with
  | nil =>
    cases other with
    | nil => simp at hne
    | cons o os => simp at hlen
  | cons p ps ih =>
    cases other with
    | nil => simp at hlen
    | cons o os =>
      simp only [List.cons_append, ciPrefixDrop]
      by_cases hpo : p.toLower = o.toLower
      · rw [if_pos hpo]
        refine ih (by simpa using hlen) ?_
        intro htl
        exact hne (by simp [hpo, htl])
      · rw [if_neg hpo]

theorem matchMonthAux_exact_start {l : List String} {i : Nat} {cs : List Char}
    {m : Nat} {rest : List Char}
    (h : matchMonthAux dropPrefixChars l i cs = some (m, rest)) :
    ∃ b ∈ l, ∃ r, cs = b.data ++ r := by
  induction l generalizing i with
  | nil => simp [matchMonthAux] at h
  | cons a l ih =>
    rw [matchMonthAux] at h
    cases hA : dropPrefixChars a.data cs with
    | some r =>
      exact ⟨a, by simp, r, dropPrefixChars_eq_append hA⟩
    | none =>
      rw [hA] at h
      obtain ⟨b, hb, r, hr⟩ := ih h
      exact ⟨b, by simp [hb], r, hr⟩

theorem matchMonthAux_bridge {l : List String}
    (h3 : ∀ a ∈ l, ∀ b ∈ l, a.data.length = b.data.length)
    (hdist : l.Pairwise (fun a b => a.data.map Char.toLower ≠ b.data.map Char.toLower))
    {i : Nat} {cs : List Char} {m : Nat} {rest : List Char}
    (h : matchMonthAux dropPrefixChars l i cs = some (m, rest)) :
    matchMonthAux ciPrefixDrop l i cs = some (m, rest) := by
  induction l generalizing i with
  | nil => simp [matchMonthAux] at h
  | cons a l ih =>
    rw [matchMonthAux] at h ⊢
    cases hA : dropPrefixChars a.data cs with
    | some r =>
      rw [hA] at h
      rw [ciPrefixDrop_of_exact hA]
      exact h
    | none =>
      rw [hA] at h
      obtain ⟨b, hb, r, hr⟩ := matchMonthAux_exact_start h
      have hne : a.data.map Char.toLower ≠ b.data.map Char.toLower :=
        (List.pairwise_cons.mp hdist).1 b hb
      have hlen : a.data.length = b.data.length :=
        h3 a (by simp) b (by simp [hb])
      have hfail : ciPrefixDrop a.data cs = none := by
        rw [hr]; exact ciPrefixDrop_none_of_lower_ne hlen hne r
      rw [hfail]
      exact ih (fun x hx y hy => h3 x (by simp [hx]) y (by simp [hy]))
        (List.pairwise_cons.mp hdist).2 h

theorem matchMonthExact_to_CI {cs : List Char} {m : Nat} {rest : List Char}
    (h : matchMonthExact cs = some (m, rest)) : matchMonthCI cs = some (m, rest) :=
  matchMonthAux_bridge (by decide) (by decide) h

theorem expectChar_eq_some {c : Char} {cs r : List Char} :
    expectChar c cs = some r ↔ cs = c :: r := by
  cases cs with
  | nil => simp [expectChar]
  | cons x t =>
    by_cases hx : x = c
    · subst hx; simp [expectChar]
    · simp [expectChar, hx, Ne.symm hx]

theorem takeWhile_pos_head {p : Char → Bool} {cs : List Char}
    (h : 0 < (cs.takeWhile p).length) : ∃ c t, cs = c :: t ∧ p c = true := by
  cases cs with
  | nil => simp at h
  | cons c t =>
    cases hpc : p c with
    | true => exact ⟨c, t, rfl, hpc⟩
    | false => simp [List.takeWhile_cons, hpc] at h

theorem parseDay_head {cs : List Char} {d : Nat} {rest : List Char}
    (h : parseDay cs = some (d, rest)) : ∃ c t, cs = c :: t ∧ c.isDigit = true := by
  simp only [parseDay] at h
  split at h
  · next hcond =>
    exact takeWhile_pos_head (by omega)
  · exact absurd h (by simp)

theorem parseYear4_head {cs : List Char} {y : Nat} {rest : List Char}
    (h : parseYear4 cs = some (y, rest)) : ∃ c t, cs = c :: t ∧ c.isDigit = true := by
  simp only [parseYear4] at h
  split at h
  · next hcond =>
    exact takeWhile_pos_head (by omega)
  · exact absurd h (by simp)

theorem digit_not_ws {c : Char} (h : c.isDigit = true) : c.isWhitespace = false := by
  revert h
  simp only [Char.isDigit, Char.isWhitespace, Bool.and_eq_true, Bool.or_eq_true,
    decide_eq_true_eq]
  rintro ⟨h1, h2⟩
  by_contra hw
  have h : c.isWhitespace = true := by
    cases hv : c.isWhitespace with
    | true => rfl
    | false => exact absurd hv hw
  have h4 : c = ' ' ∨ c = '\t' ∨ c = '\x0d' ∨ c = '\n' := by
    simpa [Char.isWhitespace, or_assoc] using h
  rcases h4 with rfl | rfl | rfl | rfl <;> revert h1 h2 <;> decide

theorem wsPlus_space_before_digit {c : Char} {t : List Char}
    (hd : c.isDigit = true) : wsPlus (' ' :: c :: t) = some (c :: t) := by
  simp [wsPlus, List.dropWhile_cons, digit_not_ws hd]

/-! ## Claims -/

/-- C1: the claim that a missing or empty-text optional element always
yields the field sentinel while the rest of the record is unaffected fails
on the code: a movie page without the `p.info` element raises
`AttributeError` (no presence check on line 72) and no record is returned;
a television page without the airDate slot raises `UnboundLocalError`
(`year` and `release_date` are assigned only inside the air-date branch);
and a movie info element with empty text makes `year` the empty string, not
the sentinel. -/
theorem C1_missing_element_aborts_record :
    extract_movie_info
      { titleText := some "Inception", infoText := none,
        genreText := some "Sci-Fi, Action",
        scoreBoard := some { tomatometerscore := some "87", audiencescore := some "91" },
        timeText := some "Jul 16, 2010" } = .error .attributeError
    ∧ extract_tv_info
      { h1Text := some ("Season 1 " ++ String.mk dashGlyph ++ " Severance"),
        links := [], criticsScoreText := some "87%", audienceScoreText := some "91%",
        airDateText := none, seriesReleaseDateText := some "2022" }
      "https://www.rottentomatoes.com/tv/severance/s01" = .error .unboundLocalError
    ∧ (extract_movie_info
      { titleText := some "Inception", infoText := some "",
        genreText := some "Sci-Fi, Action",
        scoreBoard := some { tomatometerscore := some "87", audiencescore := some "91" },
        timeText := some "Jul 16, 2010" }).map (fun r => r.year) = .ok "" :=
  ⟨rfl, rfl, rfl⟩

/-- C2: on a television page whose air-date slot text does not parse, the
unguarded `strptime` call on line 139 raises `ValueError` and the record is
not produced — the claim that the record is still returned with
`releaseDate = "not found"` fails on the code. -/
theorem C2_malformed_air_date_aborts_record :
    extract_tv_info
      { h1Text := some ("Season 1 " ++ String.mk dashGlyph ++ " Severance"),
        links := [{ href := some "/browse/tv_series_browse/genres:mystery_thriller",
                    text := "Mystery & Thriller" }],
        criticsScoreText := some "87%", audienceScoreText := some "91%",
        airDateText := some "Aired 2022-02-18", seriesReleaseDateText := some "2022" }
      "https://www.rottentomatoes.com/tv/severance/s01" = .error .valueError :=
  rfl

/-- C3: on a heading that does not match the season/title pattern, both
halves are set to the truthy string `'not found'`, so the condition
`if title and season` still holds and the composed title is the partially
composed string `"not found (not found)"`, not the sentinel — for a present
non-matching heading, for an absent heading, and in the returned record. -/
theorem C3_title_composition_not_all_or_nothing :
    (extract_tv_info
      { h1Text := some "Severance", links := [],
        criticsScoreText := some "87%", audienceScoreText := some "91%",
        airDateText := some "Aired Feb 18, 2022", seriesReleaseDateText := some "2022" }
      "https://www.rottentomatoes.com/tv/severance/s01").map (fun r => r.title) =
      .ok "not found (not found)"
    ∧ tv_title (some "Severance") = "not found (not found)"
    ∧ tv_title none = "not found (not found)" :=
  ⟨rfl, rfl, rfl⟩

/-- C5: a present `score-board-deprecated` element whose score attribute is
absent makes the guard `score_board.get(key) not in ('not found', '')`
succeed (the `get` without default returns `None`), so the code evaluates
`float('not found')` and raises `ValueError` instead of producing the
sentinel; an empty attribute value and an absent score-board element do
short-circuit to the sentinel. -/
theorem C5_absent_score_attribute_raises :
    extract_movie_info
      { titleText := some "T", infoText := some "2010, R, 2h 28m",
        genreText := some "Drama",
        scoreBoard := some { tomatometerscore := none, audiencescore := some "91" },
        timeText := some "Jul 16, 2010" } = .error .valueError
    ∧ attrScore (some "") = .ok (.str "not found")
    ∧ score_board_score none (fun b => b.tomatometerscore) = .ok (.str "not found") :=
  ⟨rfl, rfl, rfl⟩

/-- C8: when the type marker is absent, or its value contains neither the
movie marker nor the television marker, the dispatcher chooses no extractor
and the record step performs no sheet write, whatever either extractor
would have returned — a per-record skip, not an abort. -/
theorem C8_unrecognized_type_skips (v : Option String)
    (movieResult tvResult : Except PyErr MediaRecord)
    (h : v = none ∨ ∃ s, v = some s ∧ containsSub "movie".data s.data = false ∧
      containsSub "tv_show".data s.data = false) :
    dispatch v = Dispatch.skip ∧
      scrape_rotten_tomatoes_and_update_sheet v movieResult tvResult =
        ScrapeOutcome.skipped := by
  rcases h with rfl | ⟨s, rfl, h1, h2⟩
  · exact ⟨rfl, rfl⟩
  · constructor
    · simp [dispatch, h1, h2]
    · simp [scrape_rotten_tomatoes_and_update_sheet, h1, h2]

/-- C8 witness: the marker value "website" is skipped. -/
theorem C8_unrecognized_type_skips_witness :
    dispatch (some "website") = Dispatch.skip ∧
      scrape_rotten_tomatoes_and_update_sheet (some "website")
        (.error .valueError) (.error .valueError) = ScrapeOutcome.skipped :=
  C8_unrecognized_type_skips (some "website") (.error .valueError) (.error .valueError)
    (Or.inr ⟨"website", rfl, by decide, by decide⟩)

/-- C9: when the URL does not match the series-URL pattern, `re.search`
returns `None`, `.group(1)` raises `AttributeError`, and the television
extractor produces no record — the error propagates to the caller. -/
theorem C9_malformed_series_url_aborts (soup : TVDoc) (url : String)
    (h : seriesUrlOf url = none) :
    extract_tv_info soup url = .error .attributeError := by
  unfold extract_tv_info
  rw [h]

/-- C9 witness: a non-television URL aborts extraction. -/
theorem C9_malformed_series_url_aborts_witness :
    extract_tv_info
      { h1Text := none, links := [], criticsScoreText := none,
        audienceScoreText := none, airDateText := none, seriesReleaseDateText := none }
      "https://example.com/m/inception" = .error .attributeError :=
  C9_malformed_series_url_aborts _ _ (by rfl)

/-- C4 counterexample: a present but malformed numeric score attribute makes
the whole movie extraction raise `ValueError` instead of being caught and
converted to the field sentinel. -/
theorem C4_uncaught_parse_failure_cex :
    extract_movie_info
      { titleText := some "T", infoText := some "2010, R, 2h 28m",
        genreText := some "Drama",
        scoreBoard := some { tomatometerscore := some "abc", audiencescore := some "91" },
        timeText := some "Jul 16, 2010" } = .error .valueError :=
  rfl

/-- C4 (amended): a malformed numeric score value is not caught at the point
of use — the `float` failure raises and aborts the whole record, in both the
movie extractor (a score attribute that is neither absent, empty, nor the
literal `'not found'`) and the television score step (a nonempty slot text);
only the movie release-date parse is guarded by the date predicate and
falls back to the sentinel instead of raising. -/
theorem C4_parse_failure_aborts_record (soup : MovieDoc) (i s t : String)
    (b : ScoreBoard) :
    (soup.infoText = some i → soup.scoreBoard = some b → b.tomatometerscore = some s →
      pyFloat s = none → s ≠ "not found" → s ≠ "" →
      extract_movie_info soup = .error .valueError)
    ∧ (t ≠ "" → pyFloat (pyStripPercent t) = none →
      tv_text_score t = .error .valueError)
    ∧ (check_date_format t = false → movie_release_date t = "not found") := by
  refine ⟨?_, ?_, ?_⟩
  · intro hi hsb hts hf h1 h2
    have hs : attrScore (some s) = .error .valueError := by
      simp [attrScore, h1, h2, hf]
    simp only [extract_movie_info, hi, score_board_score, hsb, hts, hs]
    rfl
  · intro h1 hf
    simp [tv_text_score, h1, hf]
  · intro hc
    simp [movie_release_date, hc]

/-- C4 witness: a concrete malformed movie score attribute and a nonempty
television slot text with no digits. -/
theorem C4_parse_failure_aborts_record_witness :
    extract_movie_info
      { titleText := some "T2", infoText := some "2011, PG, 1h 30m",
        genreText := some "Drama",
        scoreBoard := some { tomatometerscore := some "eighty", audiencescore := some "91" },
        timeText := some "Jan 5, 2024" } = .error .valueError
    ∧ tv_text_score "%%" = .error .valueError
    ∧ movie_release_date "%%" = "not found" := by
  have h := C4_parse_failure_aborts_record
    { titleText := some "T2", infoText := some "2011, PG, 1h 30m",
      genreText := some "Drama",
      scoreBoard := some { tomatometerscore := some "eighty", audiencescore := some "91" },
      timeText := some "Jan 5, 2024" }
    "2011, PG, 1h 30m" "eighty" "%%"
    { tomatometerscore := some "eighty", audiencescore := some "91" }
  exact ⟨h.1 rfl rfl rfl (by rfl) (by decide) (by decide),
    h.2.1 (by decide) (by rfl), h.2.2 (by rfl)⟩

/-- C6 counterexample: the extractors do not validate the source percentage,
so the attribute value "250" produces the critic score 250/100 = 2.5, which
is neither the sentinel nor a fraction in the unit interval. -/
theorem C6_score_out_of_range_cex :
    (extract_movie_info
      { titleText := some "T", infoText := some "2010, R, 2h 28m",
        genreText := some "Drama",
        scoreBoard := some { tomatometerscore := some "250", audiencescore := some "91" },
        timeText := some "Jul 16, 2010" }).map (fun r => r.criticScore) =
      .ok (.num (250 / 100))
    ∧ ¬ scoreInRange (.num (250 / 100)) := by
  constructor
  · have h : (extract_movie_info
        { titleText := some "T", infoText := some "2010, R, 2h 28m",
          genreText := some "Drama",
          scoreBoard := some { tomatometerscore := some "250", audiencescore := some "91" },
          timeText := some "Jul 16, 2010" }).map (fun r => r.criticScore) =
        .ok (.num (partsToRat ⟨false, 250, 0, 0⟩ / 100)) := rfl
    rw [h]
    norm_num [partsToRat]
  · rintro (h | ⟨q, hq, h0, h1⟩)
    · exact absurd h (by simp)
    · rw [Val.num.injEq] at hq
      rw [← hq] at h1
      norm_num at h1

/-- C6 (amended): each score field is either the sentinel or exactly the
parsed source value divided by 100, with no clamping or rounding; the
result lies in the unit interval exactly when the source percentage lies in
[0, 100], so out-of-range source values produce out-of-range fractions. -/
theorem C6_score_unclamped_division (s t : String) (q p : ℚ) :
    (pyFloat s = some q → s ≠ "not found" → s ≠ "" →
      attrScore (some s) = .ok (.num (q / 100)))
    ∧ (t ≠ "" → pyFloat (pyStripPercent t) = some p →
      tv_text_score t = .ok (.num (p / 100)))
    ∧ (0 ≤ q ∧ q ≤ 100 ↔ 0 ≤ q / 100 ∧ q / 100 ≤ 1) := by
  refine ⟨?_, ?_, ?_⟩
  · intro hf h1 h2
    simp [attrScore, h1, h2, hf]
  · intro h1 hf
    simp [tv_text_score, h1, hf]
  · rw [div_le_one (by norm_num : (0:ℚ) < 100),
      le_div_iff₀ (by norm_num : (0:ℚ) < 100), zero_mul]

/-- C6 witness: the in-range percentage 87 gives 0.87 for a movie attribute,
and 91 (with the percent glyph stripped) gives 0.91 for a television slot. -/
theorem C6_score_unclamped_division_witness :
    attrScore (some "87") = .ok (.num (87 / 100))
    ∧ tv_text_score "91%" = .ok (.num (91 / 100))
    ∧ (0 ≤ (87:ℚ) ∧ (87:ℚ) ≤ 100 ↔ 0 ≤ (87:ℚ) / 100 ∧ (87:ℚ) / 100 ≤ 1) := by
  have h := C6_score_unclamped_division "87" "91%" 87 91
  have hf1 : pyFloat "87" = some 87 := by
    have hp : pyFloatParts "87" = some ⟨false, 87, 0, 0⟩ := by decide
    norm_num [pyFloat, hp, partsToRat]
  have hf2 : pyFloat (pyStripPercent "91%") = some 91 := by
    have hp : pyFloatParts (pyStripPercent "91%") = some ⟨false, 91, 0, 0⟩ := by decide
    norm_num [pyFloat, hp, partsToRat]
  exact ⟨h.1 hf1 (by decide) (by decide), h.2.1 (by decide) hf2, h.2.2⟩

/-- C10 support: a comma-free piece is returned whole by the splitter. -/
theorem pySplitComma_commafree {g : List Char} (hg : ',' ∉ g) :
    pySplitComma g = [g] := by
  induction g with
  | nil => rfl
  | cons c t ih =>
    have hc : c ≠ ',' := fun h => hg (by simp [h])
    have ht : ',' ∉ t := fun h => hg (by simp [h])
    rw [pySplitComma, if_neg hc, ih ht]

/-- C10 support: splitting distributes over a leading comma-free piece. -/
theorem pySplitComma_append {g t : List Char} (hg : ',' ∉ g) :
    pySplitComma (g ++ ',' :: t) = g :: pySplitComma t := by
  induction g with
  | nil =>
    rw [List.nil_append, pySplitComma, if_pos rfl]
  | cons c g0 ih =>
    have hc : c ≠ ',' := fun h => hg (by simp [h])
    have hg0 : ',' ∉ g0 := fun h => hg (by simp [h])
    rw [List.cons_append, pySplitComma, if_neg hc, ih hg0]

/-- C10 support: splitting a comma-join of comma-free pieces restores the
pieces. -/
theorem pySplitComma_join {gs : List (List Char)} (h0 : gs ≠ [])
    (h : ∀ g ∈ gs, ',' ∉ g) :
    pySplitComma (joinWithChars [','] gs) = gs := by
  induction gs with
  | nil => exact absurd rfl h0
  | cons g gs0 ih =>
    cases gs0 with
    | nil =>
      rw [joinWithChars]
      exact pySplitComma_commafree (h g (by simp))
    | cons g2 gs1 =>
      rw [joinWithChars, List.append_assoc, List.singleton_append,
        pySplitComma_append (h g (by simp)),
        ih (by simp) (fun x hx => h x (by simp [hx]))]

/-- C10: genre fields preserve source order and multiplicity. Splitting the
comma-joined movie genre text, stripping each part and re-joining yields
exactly the original entries in order (duplicates included); the television
genre list is position-wise the filtered link list, so it distributes over
concatenation and keeps one entry per matching link. -/
theorem C10_genre_order_and_duplicates (gs : List (List Char))
    (links l1 l2 : List TVLink) :
    (gs ≠ [] → (∀ g ∈ gs, trimChars g = g ∧ ',' ∉ g) →
      movie_genre (String.mk (joinWithChars [','] gs)) =
        String.mk (joinWithChars (", ".data) gs))
    ∧ tvGenreList (l1 ++ l2) = tvGenreList l1 ++ tvGenreList l2
    ∧ (tvGenreList links).length =
        (links.filter
          (fun l => containsSub ("genres:".data) ((l.href.getD "").data))).length := by
  refine ⟨?_, ?_, ?_⟩
  · intro h0 h
    have hsplit : pySplit (String.mk (joinWithChars [','] gs)) = gs.map String.mk := by
      rw [pySplit]
      show (pySplitComma (joinWithChars [','] gs)).map String.mk = gs.map String.mk
      rw [pySplitComma_join h0 (fun g hg => (h g hg).2)]
    rw [movie_genre, hsplit, joinCommaSpace]
    congr 1
    rw [List.map_map, List.map_map]
    have hmap : gs.map ((String.data ∘ pyStrip) ∘ String.mk) = gs :=
      calc gs.map ((String.data ∘ pyStrip) ∘ String.mk) = gs.map id :=
            List.map_congr_left (fun g hg => (h g hg).1)
        _ = gs := List.map_id gs
    rw [hmap]
  · simp [tvGenreList, List.filter_append]
  · simp [tvGenreList]

/-- C10 witness: a duplicated genre entry survives split/strip/join in
order, and a duplicated television genre link contributes twice. -/
theorem C10_genre_order_and_duplicates_witness :
    movie_genre (String.mk (joinWithChars [',']
        ["Action".data, "Action".data, "Sci-Fi".data])) =
      String.mk (joinWithChars (", ".data)
        ["Action".data, "Action".data, "Sci-Fi".data])
    ∧ tvGenreList
        ([{ href := some "/browse/genres:action", text := "Action" }] ++
         [{ href := some "/browse/genres:action", text := "Action" }]) =
      tvGenreList [{ href := some "/browse/genres:action", text := "Action" }] ++
        tvGenreList [{ href := some "/browse/genres:action", text := "Action" }]
    ∧ (tvGenreList [{ href := some "/browse/genres:action", text := "Action" },
        { href := some "/x", text := "X" }]).length =
      ([{ href := some "/browse/genres:action", text := "Action" },
        { href := some "/x", text := "X" }].filter
          (fun l : TVLink =>
            containsSub ("genres:".data) ((l.href.getD "").data))).length := by
  have h := C10_genre_order_and_duplicates
    ["Action".data, "Action".data, "Sci-Fi".data]
    [{ href := some "/browse/genres:action", text := "Action" },
     { href := some "/x", text := "X" }]
    [{ href := some "/browse/genres:action", text := "Action" }]
    [{ href := some "/browse/genres:action", text := "Action" }]
  exact ⟨h.1 (by decide) (by decide), h.2.1, h.2.2⟩

/-- C7 support: acceptance by the strptime model implies the calendar
validity check passed. -/
theorem strptimeBDY_some_valid {s : String} {m d y : Nat}
    (h : strptimeBDY s = some (m, d, y)) : validDate m d y = true := by
  rw [strptimeBDY] at h
  split at h
  · next a b c =>
    split at h
    · next hv =>
      simp only [Option.some.injEq, Prod.mk.injEq] at h
      obtain ⟨rfl, rfl, rfl⟩ := h
      exact hv
    · exact absurd h (by simp)
  · exact absurd h (by simp)

/-- C7 counterexample: "Feb 30, 2024" matches the syntactic
month-abbreviation/day/4-digit-year grammar, yet the predicate rejects it
(the `datetime` constructor refuses the nonexistent date) and the
reformatting yields the sentinel instead of the canonical form. -/
theorem C7_grammar_predicate_cex :
    specDateParse "Feb 30, 2024" = some (2, 30, 2024)
    ∧ check_date_format "Feb 30, 2024" = false
    ∧ movie_release_date "Feb 30, 2024" = "not found" :=
  ⟨rfl, rfl, rfl⟩

/-- C7 (amended): the predicate accepts a grammar string only when it also
denotes a calendar-valid date: every syntactically matching string whose
date is valid is accepted with the same month/day/year; every accepted
string is reformatted to the canonical mm/dd/yy of its parse (and its date
is calendar-valid); and every rejected string yields the sentinel. The
predicate is additionally lenient about month-name case and runs of
whitespace, which the strict grammar is not. -/
theorem C7_date_reformatting (s : String) (m d y : Nat) :
    (specDateParse s = some (m, d, y) → validDate m d y = true →
      strptimeBDY s = some (m, d, y))
    ∧ (strptimeBDY s = some (m, d, y) →
      check_date_format s = true ∧ validDate m d y = true ∧
        movie_release_date s = formatMMDDYY m d y)
    ∧ (check_date_format s = false → movie_release_date s = "not found") := by
  refine ⟨?_, ?_, ?_⟩
  · intro hp hv
    simp only [specDateParse, Option.bind_eq_some] at hp
    obtain ⟨⟨m1, r1⟩, hM, ⟨r2, hsp1, ⟨⟨d1, r3⟩, hD, ⟨r4, hc, ⟨r5, hsp2,
      ⟨⟨y1, r6⟩, hY, hfin⟩⟩⟩⟩⟩⟩ := hp
    rw [expectChar_eq_some] at hsp1 hc hsp2
    have h6 : r6 = [] := by
      by_cases h6 : r6 = []
      · exact h6
      · rw [if_neg h6] at hfin
        exact absurd hfin (by simp)
    rw [if_pos h6] at hfin
    simp only [Option.some.injEq, Prod.mk.injEq] at hfin
    obtain ⟨rfl, rfl, rfl⟩ := hfin
    subst h6 hsp1 hc hsp2
    obtain ⟨c2, t2, hr2, hd2⟩ := parseDay_head hD
    obtain ⟨c5, t5, hr5, hd5⟩ := parseYear4_head hY
    subst hr2 hr5
    have hsm : strptimeMatch s = some (m1, d1, y1) := by
      unfold strptimeMatch
      rw [matchMonthExact_to_CI hM]
      simp only [Option.some_bind]
      rw [wsPlus_space_before_digit hd2]
      simp only [Option.some_bind]
      rw [hD]
      simp only [Option.some_bind]
      simp only [expectChar, eq_self_iff_true, if_true, Option.some_bind]
      rw [wsPlus_space_before_digit hd5]
      simp only [Option.some_bind]
      rw [hY]
      simp only [Option.some_bind, eq_self_iff_true, if_true]
    simp [strptimeBDY, hsm, hv]
  · intro hb
    refine ⟨?_, strptimeBDY_some_valid hb, ?_⟩
    · unfold check_date_format
      rw [hb]
      rfl
    · have hcf : check_date_format s = true := by
        unfold check_date_format
        rw [hb]
        rfl
      simp [movie_release_date, hcf, hb]
  · intro hcf
    simp [movie_release_date, hcf]

/-- C7 witness: the valid grammar string "Jan 5, 2024" is accepted and
reformatted to its canonical form 01/05/24. -/
theorem C7_date_reformatting_witness :
    strptimeBDY "Jan 5, 2024" = some (1, 5, 2024)
    ∧ check_date_format "Jan 5, 2024" = true
    ∧ movie_release_date "Jan 5, 2024" = formatMMDDYY 1 5 2024
    ∧ formatMMDDYY 1 5 2024 = "01/05/24" := by
  have h := C7_date_reformatting "Jan 5, 2024" 1 5 2024
  have h1 := h.1 (by rfl) (by rfl)
  have h2 := h.2.1 h1
  exact ⟨h1, h2.1, h2.2.2, by rfl⟩

